import Mathlib

/-!
Verification development for the FluexGL rendering core: a shallow embedding
of the WebGPURenderer, WebGPURendererScene, Camera and Thread classes, with
theorems about sizing, MSAA resolution, the frame protocol, scene
preparation, the camera uniform layout and the frame scheduler.

Conventions of the embedding:
* JS numbers that the code only ever treats as reals are `ℚ`; millisecond
  timestamps from `Date.now()` are `ℤ`; JS `x | 0` is modelled as `toInt32`
  (ToInt32 wrap-around); assignments to the reflected `unsigned long`
  attributes `canvas.width`/`canvas.height` are modelled as
  `reflectUnsignedLong` (ToUint32, then fallback to the attribute default
  above 2147483647); JS numbers that flow through an
  `isFinite`/`NaN`-sensitive guard are the sum type `JSNum`.
* GPU handles (texture views, encoders, passes) are identifiers drawn from a
  `nextId` counter threaded through the renderer state; inert descriptor
  fields (labels, formats, usage flags) are elided.
* Diagnostics written through the `Debug` sink are returned as explicit
  `List ErrCode` / `List WarnCode` values; the sink never influences control
  flow in the source, and neither does it here.
-/

set_option autoImplicit false

namespace FluexGL

/-- Error codes of the `Debug.Error` sink (`codes.ts`), restricted to the
ones reachable from the embedded operations. -/
inductive ErrCode
  | WGPUR_SCENE_NOT_PREPARED
  | WGPURSCENE_RENDERER_NOT_INITIALIZED
  | CAM_UNIFORM_BUFFER_UNDEFINED
  | THREAD_INVALID_SIMULATION_UPDATE_RATE
  | THREAD_INVALID_DELTA_TIME
  deriving DecidableEq, Repr

/-- Warning codes of the `Debug.Warn` sink, restricted likewise. -/
inductive WarnCode
  | THREAD_ALREADY_ACTIVE
  | THREAD_ALREADY_INACTIVE
  deriving DecidableEq, Repr

/-- A JS number as seen by `Number.isFinite` guards: NaN, the two
infinities, or a finite value (modelled as a rational). -/
inductive JSNum
  | nan
  | posInf
  | negInf
  | finite (q : ℚ)
  deriving DecidableEq

/-- `Number.isFinite`. -/
def JSNum.isFinite : JSNum → Bool
  | .finite _ => true
  | _ => false

/-- The JS comparison `x <= 0` (false on NaN). -/
def JSNum.leZero : JSNum → Bool
  | .nan => false
  | .posInf => false
  | .negInf => true
  | .finite q => decide (q ≤ 0)

/-- The rational value of a finite JS number (junk 0 on non-finite inputs,
which every caller below rules out by guard). -/
def JSNum.toRat : JSNum → ℚ
  | .finite q => q
  | _ => 0

/-! ### Thread (src/lib/src/others/classes/Thread.ts)

The mutable fields of the `Thread` class. The `id` string, the RAF handle
and the event registries are omitted: the claims below are about timing
state only, and event dispatch does not feed back into it. -/

structure ThreadState where
  simulationUpdateRate : ℚ
  frameRate : ℕ
  deltaTime : ℚ
  currentRegisteredTimestamp : ℤ
  lastRegisteredTimestamp : ℤ
  startTimestamp : ℤ
  isActive : Bool
  times : List ℤ
  maxDeltaMs : ℚ
  deriving DecidableEq, Repr

/-- The `Thread` constructor's field initializers, with the `Date.now()`
reads at construction time passed in as `now`. -/
def mkThread (now : ℤ) : ThreadState :=
  { simulationUpdateRate := 60
    frameRate := 0
    deltaTime := 0
    currentRegisteredTimestamp := now
    lastRegisteredTimestamp := now
    startTimestamp := now
    isActive := false
    times := []
    maxDeltaMs := 250 }

/-- The `while (times.length > 0 && times[0] <= now - 1000) times.shift()`
eviction loop of `Thread.loop`. -/
def evictOld : List ℤ → ℤ → List ℤ
  | [], _ => []
  | t :: ts, now => if t ≤ now - 1000 then evictOld ts now else t :: ts

/-- One tick of `Thread.loop`, with the `Date.now()` read passed as `now`.
The RAF re-arm and the update-event dispatch are side effects outside the
timing state. -/
def Thread.loop (now : ℤ) (s : ThreadState) : ThreadState :=
  if ¬ s.isActive then s
  else
    let rawDeltaMs : ℚ := ((now - s.lastRegisteredTimestamp : ℤ) : ℚ)
    let deltaMs := min rawDeltaMs s.maxDeltaMs
    let deltaSec := deltaMs / 1000
    let dt := deltaSec * s.simulationUpdateRate
    let times := evictOld s.times now ++ [now]
    { s with
      deltaTime := dt
      lastRegisteredTimestamp := now
      currentRegisteredTimestamp := now
      times := times
      frameRate := times.length }

/-- `Thread.Start`, with the `Date.now()` read passed as `now`. Returns the
new state and the warnings emitted. -/
def Thread.Start (now : ℤ) (s : ThreadState) : ThreadState × List WarnCode :=
  if s.isActive then (s, [.THREAD_ALREADY_ACTIVE])
  else
    ({ s with
        isActive := true
        startTimestamp := now
        lastRegisteredTimestamp := now
        currentRegisteredTimestamp := now
        times := []
        frameRate := 0 }, [])

/-- `Thread.SetSimulationUpdateRate`. -/
def Thread.SetSimulationUpdateRate (rate : JSNum) (s : ThreadState) :
    ThreadState × List ErrCode :=
  if !rate.isFinite || rate.leZero then (s, [.THREAD_INVALID_SIMULATION_UPDATE_RATE])
  else ({ s with simulationUpdateRate := rate.toRat }, [])

/-- `Thread.SetMaxDeltaMs`. -/
def Thread.SetMaxDeltaMs (ms : JSNum) (s : ThreadState) :
    ThreadState × List ErrCode :=
  if !ms.isFinite || ms.leZero then (s, [.THREAD_INVALID_DELTA_TIME])
  else ({ s with maxDeltaMs := ms.toRat }, [])

/-- A sequence of scheduler ticks at the given timestamps. -/
def runTicks (ts : List ℤ) (s : ThreadState) : ThreadState :=
  ts.foldl (fun acc t => Thread.loop t acc) s

/-! ### WebGPURenderer (src/unnamed/part_001) -/

/-- A `GPUColor` clear value. -/
structure ClearColor where
  r : ℚ
  g : ℚ
  b : ℚ
  a : ℚ
  deriving DecidableEq, Repr

/-- The fields of `WebGPURendererOptions` the embedded operations read. -/
structure WebGPURendererOptions where
  canvasWidth : Option ℤ := none
  canvasHeight : Option ℤ := none
  msaaSampleCount : Option ℤ := none
  clearColor : Option ClearColor := none
  deriving DecidableEq, Repr

/-- The numeric descriptor of a texture created by
`createOrResizeTargets` (label, format and usage flags are inert). -/
structure TextureDesc where
  width : ℤ
  height : ℤ
  sampleCount : ℤ
  deriving DecidableEq, Repr

/-- The mutable fields of `WebGPURenderer`. The canvas element is folded
into `width`/`height` (the source mirrors `canvas.width`/`canvas.height`
into `this.width`/`this.height` immediately after setting them; the
reflected-attribute behaviour of those setters is modelled in `SetSize`);
GPU handles are identifiers from the `nextId` counter. -/
structure RendererState where
  width : ℤ
  height : ℤ
  devicePixelRatio : ℚ
  options : WebGPURendererOptions
  gpuDevice : Bool
  hasInitialized : Bool
  depthTexture : Option TextureDesc
  msaaTexture : Option TextureDesc
  depthTextureView : Option ℕ
  msaaTextureView : Option ℕ
  nextId : ℕ
  deriving DecidableEq, Repr

/-- `WebGPURenderer.getMsaa`: `(n === 1 || n === 2 || n === 4 || n === 8) ? n : 1`
with `n = options.msaaSampleCount ?? 1`. -/
def getMsaa (s : RendererState) : ℤ :=
  let n := s.options.msaaSampleCount.getD 1
  if n = 1 ∨ n = 2 ∨ n = 4 ∨ n = 8 then n else 1

/-- The JS `x | 0` coercion (ToInt32) on an exact integer. -/
def toInt32 (x : ℤ) : ℤ :=
  (x + 2 ^ 31) % 2 ^ 32 - 2 ^ 31

/-- `WebGPURenderer.createOrResizeTargets`. Destroying the previous
textures is GPU-side and leaves the fields readable; when the device is
absent the method returns with every field unchanged, exactly as the
early `if (!this.gpuDevice) return` does. -/
def createOrResizeTargets (s : RendererState) : RendererState :=
  if ¬ s.gpuDevice then s
  else
    let width := max 1 (toInt32 s.width)
    let height := max 1 (toInt32 s.height)
    let msaa := getMsaa s
    { s with
      depthTexture := some { width := width, height := height, sampleCount := msaa }
      depthTextureView := some s.nextId
      msaaTexture :=
        if 1 < msaa then some { width := width, height := height, sampleCount := msaa }
        else none
      msaaTextureView := if 1 < msaa then some (s.nextId + 1) else none
      nextId := s.nextId + 2 }

/-- The setter of an HTML reflected `unsigned long` attribute such as
`canvas.width` / `canvas.height`: the assigned value is converted by
WebIDL ToUint32, and a result above 2147483647 sets the attribute to its
default instead (300 for the canvas width, 150 for its height); the
getter then reads that stored value back. -/
def reflectUnsignedLong (dflt v : ℤ) : ℤ :=
  let u := v % 2 ^ 32
  if u ≤ 2 ^ 31 - 1 then u else dflt

/-- `WebGPURenderer.SetSize`: assigns `max(1, floor(dim * devicePixelRatio))`
to `canvas.width`/`canvas.height` — reflected `unsigned long` attributes,
so out-of-range values fall back to the canvas defaults 300/150 — mirrors
the stored values into `width`/`height`, and rebuilds the render targets. -/
def SetSize (width height : ℚ) (s : RendererState) : RendererState :=
  let cw := reflectUnsignedLong 300 (max 1 ⌊width * s.devicePixelRatio⌋)
  let ch := reflectUnsignedLong 150 (max 1 ⌊height * s.devicePixelRatio⌋)
  createOrResizeTargets { s with width := cw, height := ch }

/-- The `const msaa = Math.max(1, this.options.msaaSampleCount ?? 1)` line
of `WebGPURenderer.BeginFrame`. -/
def beginFrameMsaa (s : RendererState) : ℤ :=
  max 1 (s.options.msaaSampleCount.getD 1)

/-- The `msaaSampleCount ?? 1` argument `WebGPURendererScene.Prepare`
passes to every `Renderable.Initialize` call. -/
def prepareSampleArg (s : RendererState) : ℤ :=
  s.options.msaaSampleCount.getD 1

/-- A `GPURenderPassColorAttachment` as built by `BeginFrame`. -/
structure ColorAttachment where
  view : Option ℕ
  resolveTarget : Option ℕ
  clearValue : ClearColor
  deriving DecidableEq, Repr

/-- The `WebGPURendererFrameInfo` record returned by `BeginFrame`. -/
structure WebGPURendererFrameInfo where
  encoder : ℕ
  pass : ℕ
  colorView : ℕ
  attachment : ColorAttachment
  deriving DecidableEq, Repr

/-- `WebGPURenderer.BeginFrame`. Returns the state after any lazy target
rebuilds, the frame info, and the diagnostics emitted through the sink
(the method body contains no `Debug.Error`/`Debug.Warn` call, so that
list is built empty, on every path). -/
def BeginFrame (s : RendererState) :
    RendererState × WebGPURendererFrameInfo × List ErrCode :=
  let clear := s.options.clearColor.getD { r := 0, g := 0, b := 0, a := 1 }
  let colorView := s.nextId
  let encoder := s.nextId + 1
  let s1 : RendererState := { s with nextId := s.nextId + 2 }
  let msaa := beginFrameMsaa s
  let s2 := if s1.depthTextureView = none then createOrResizeTargets s1 else s1
  let s3 :=
    if 1 < msaa ∧ s2.msaaTextureView = none then createOrResizeTargets s2 else s2
  let attachment : ColorAttachment :=
    if 1 < msaa then
      { view := s3.msaaTextureView, resolveTarget := some colorView, clearValue := clear }
    else
      { view := some colorView, resolveTarget := none, clearValue := clear }
  let pass := s3.nextId
  let s4 : RendererState := { s3 with nextId := s3.nextId + 1 }
  (s4, { encoder := encoder, pass := pass, colorView := colorView, attachment := attachment }, [])

/-- The host-side GPU commands the embedded operations issue, in order. -/
inductive RenderOp
  | writeUniforms
  | setBindGroup (slot : ℕ)
  | draw (rid : ℕ)
  | passEnd (pass : ℕ)
  | queueSubmit (encoder : ℕ)
  deriving DecidableEq, Repr

/-- `WebGPURenderer.EndFrame`: unconditionally ends the given pass and
submits the encoder's finished buffer; no guard, no diagnostic. -/
def EndFrame (frameInfo : WebGPURendererFrameInfo) : List RenderOp :=
  [.passEnd frameInfo.pass, .queueSubmit frameInfo.encoder]

/-- Extracts the renderable identifier of a draw command. -/
def RenderOp.drawId : RenderOp → Option ℕ
  | .draw rid => some rid
  | _ => none

/-- A renderer directly after a successful `Initialize()` with the given
options and an effective pixel ratio of 1: device acquired, no targets
allocated yet. Used as the concrete state of counterexamples. -/
def initializedRenderer (opts : WebGPURendererOptions) : RendererState :=
  { width := 0
    height := 0
    devicePixelRatio := 1
    options := opts
    gpuDevice := true
    hasInitialized := true
    depthTexture := none
    msaaTexture := none
    depthTextureView := none
    msaaTextureView := none
    nextId := 0 }

/-! ### WebGPURendererScene (src/lib/src/others/classes/WebGPURendererScene.ts) -/

/-- A reference to a `Renderable` object: its `isRenderable` marker and an
identifier standing for the object's identity. -/
structure RenderableRef where
  isRenderable : Bool
  rid : ℕ
  deriving DecidableEq, Repr

/-- The mutable fields of `WebGPURendererScene` (the field is spelt
`rendererables` in the source). -/
structure SceneState where
  rendererables : List RenderableRef
  hasPrepared : Bool
  deriving DecidableEq, Repr

/-- `WebGPURendererScene.AddRenderable`: pushes the reference iff its
`isRenderable` marker is set. -/
def AddRenderable (renderable : RenderableRef) (s : SceneState) : SceneState :=
  if renderable.isRenderable then
    { s with rendererables := s.rendererables ++ [renderable] }
  else s

/-- The sequential `await renderable.Initialize(...)` loop of
`Prepare`: each `Renderable.Initialize` is abstracted by its outcome
`initOk`; a rejected initialization propagates out of the async method,
aborting the loop (result `false`) before later renderables run. -/
def runInits (initOk : RenderableRef → Bool) : List RenderableRef → Bool
  | [] => true
  | r :: rs => if initOk r then runInits initOk rs else false

/-- The observable outcome of `WebGPURendererScene.Prepare`: the scene
state afterwards, whether `camera.EnsureBinding` ran to completion, the
diagnostics emitted, and whether an exception escaped the method. -/
structure PrepareResult where
  scene : SceneState
  bindingDone : Bool
  errors : List ErrCode
  threw : Bool
  deriving DecidableEq, Repr

/-- `WebGPURendererScene.Prepare`: fails early when the renderer is not
initialized; otherwise initializes every renderable in insertion order,
binds the camera, and only then sets `hasPrepared := true`. A throwing
`Initialize` leaves `hasPrepared` untouched and skips the binding. -/
def Prepare (rendererInitialized : Bool) (initOk : RenderableRef → Bool)
    (s : SceneState) : PrepareResult :=
  if ¬ rendererInitialized then
    { scene := s, bindingDone := false
      errors := [.WGPURSCENE_RENDERER_NOT_INITIALIZED], threw := false }
  else if runInits initOk s.rendererables then
    { scene := { s with hasPrepared := true }, bindingDone := true
      errors := [], threw := false }
  else
    { scene := s, bindingDone := false, errors := [], threw := true }

/-- `WebGPURenderer.Render`: gate on `scene.hasPrepared`, gate on the
device queue, write the camera uniforms (the camera's uniform-buffer
presence decides between a write and a `CAM_UNIFORM_BUFFER_UNDEFINED`
diagnostic), begin a frame, bind the camera at slot 0, draw every
renderable in list order, end the frame. Returns the command trace and
the diagnostics. -/
def Render (r : RendererState) (queuePresent camBufferPresent : Bool)
    (scene : SceneState) : List RenderOp × List ErrCode :=
  if ¬ scene.hasPrepared then ([], [.WGPUR_SCENE_NOT_PREPARED])
  else if ¬ queuePresent then ([], [])
  else
    let writeOps : List RenderOp := if camBufferPresent then [.writeUniforms] else []
    let camErrs : List ErrCode :=
      if camBufferPresent then [] else [.CAM_UNIFORM_BUFFER_UNDEFINED]
    let begun := BeginFrame r
    (writeOps ++ [.setBindGroup 0]
       ++ scene.rendererables.map (fun renderable => RenderOp.draw renderable.rid)
       ++ EndFrame begun.2.1,
     camErrs ++ begun.2.2)

/-! ### Camera (src/unnamed/part_008) -/

/-- The `Vector3` value type (only the fields the camera reads). -/
structure Vector3 where
  x : ℚ
  y : ℚ
  z : ℚ
  deriving DecidableEq, Repr

/-- A GPU buffer: its byte size and its contents, as float32 slots of four
bytes each (the camera only ever writes float32 data). -/
structure GPUBufferState where
  size : ℕ
  data : List ℚ
  deriving DecidableEq, Repr

/-- The camera fields `WriteUniformsToQueue` reads: the world position,
the 16-entry column-major view-projection matrix (a gl-matrix `mat4`),
and the lazily created uniform buffer. -/
structure CameraState where
  position : Vector3
  viewProjection : List ℚ
  uniformBuffer : Option GPUBufferState
  deriving DecidableEq, Repr

/-- `Camera.CreateUniformBuffer`: returns the existing buffer if present,
otherwise creates an 80-byte buffer (20 float32 slots, zero-initialized
as GPU allocation guarantees). -/
def CreateUniformBuffer (cam : CameraState) : CameraState :=
  match cam.uniformBuffer with
  | some _ => cam
  | none =>
    { cam with uniformBuffer := some { size := 80, data := List.replicate 20 0 } }

/-- `queue.writeBuffer(buffer, byteOffset, data)` for float32 `data`: the
slots from `byteOffset / 4` on are overwritten by `data`; the rest is
kept. -/
def writeBufferFloats (buffer : List ℚ) (byteOffset : ℕ) (data : List ℚ) : List ℚ :=
  buffer.take (byteOffset / 4) ++ data ++ buffer.drop (byteOffset / 4 + data.length)

/-- `Camera.WriteUniformsToQueue`: errors when the uniform buffer is
undefined, else writes the view-projection matrix at byte offset 0 and
`vec3.fromValues(position.x, position.y, position.z)` at byte offset 64. -/
def WriteUniformsToQueue (cam : CameraState) : CameraState × List ErrCode :=
  match cam.uniformBuffer with
  | none => (cam, [.CAM_UNIFORM_BUFFER_UNDEFINED])
  | some buffer =>
    let positionData := [cam.position.x, cam.position.y, cam.position.z]
    let data1 := writeBufferFloats buffer.data 0 cam.viewProjection
    let data2 := writeBufferFloats data1 64 positionData
    ({ cam with uniformBuffer := some { buffer with data := data2 } }, [])

/-! ## Theorems -/

/-- C6: on every scheduler tick, `deltaTime` equals
`min(now - lastTimestamp, maxDeltaMs) / 1000` scaled by
`simulationUpdateRate`, with `maxDeltaMs` defaulting to 250 ms. -/
theorem scheduler_delta_clamped (s : ThreadState) (now : ℤ) (h : s.isActive = true) :
    (Thread.loop now s).deltaTime
      = min ((now - s.lastRegisteredTimestamp : ℤ) : ℚ) s.maxDeltaMs / 1000
          * s.simulationUpdateRate
    ∧ ∀ t : ℤ, (mkThread t).maxDeltaMs = 250 := by
  refine ⟨?_, fun t => rfl⟩
  simp [Thread.loop, h]

/-- C6 witness: a 5000 ms gap on a default thread yields `deltaTime`
computed from the 250 ms clamp (`250 / 1000 * 60 = 15`), not from the raw
5000 ms. -/
theorem scheduler_delta_clamped_witness :
    ({ mkThread 0 with isActive := true } : ThreadState).isActive = true
    ∧ (Thread.loop 5000 { mkThread 0 with isActive := true }).deltaTime = 15 := by
  refine ⟨rfl, ?_⟩
  have h := (scheduler_delta_clamped { mkThread 0 with isActive := true } 5000 rfl).1
  rw [h]
  norm_num [mkThread, min_def]

/-- C9: for every non-finite or non-positive argument, the two Thread
setters report an error and leave their field unchanged; for every finite
positive argument the field is set to exactly that value. -/
theorem thread_setters_validate (rate ms : JSNum) (s : ThreadState) :
    (∀ q : ℚ, rate = .finite q → 0 < q →
        Thread.SetSimulationUpdateRate rate s
          = ({ s with simulationUpdateRate := q }, []))
    ∧ (¬ (∃ q : ℚ, rate = .finite q ∧ 0 < q) →
        Thread.SetSimulationUpdateRate rate s
          = (s, [.THREAD_INVALID_SIMULATION_UPDATE_RATE]))
    ∧ (∀ q : ℚ, ms = .finite q → 0 < q →
        Thread.SetMaxDeltaMs ms s = ({ s with maxDeltaMs := q }, []))
    ∧ (¬ (∃ q : ℚ, ms = .finite q ∧ 0 < q) →
        Thread.SetMaxDeltaMs ms s = (s, [.THREAD_INVALID_DELTA_TIME])) := by
  refine ⟨?_, ?_, ?_, ?_⟩
  · rintro q rfl hq
    simp [Thread.SetSimulationUpdateRate, JSNum.isFinite, JSNum.leZero, JSNum.toRat,
      hq.not_le]
  · intro hno
    cases rate with
    | finite q =>
      have hq : q ≤ 0 := by
        by_contra hpos
        exact hno ⟨q, rfl, lt_of_not_le hpos⟩
      simp [Thread.SetSimulationUpdateRate, JSNum.isFinite, JSNum.leZero, hq]
    | nan => simp [Thread.SetSimulationUpdateRate, JSNum.isFinite, JSNum.leZero]
    | posInf => simp [Thread.SetSimulationUpdateRate, JSNum.isFinite, JSNum.leZero]
    | negInf => simp [Thread.SetSimulationUpdateRate, JSNum.isFinite, JSNum.leZero]
  · rintro q rfl hq
    simp [Thread.SetMaxDeltaMs, JSNum.isFinite, JSNum.leZero, JSNum.toRat, hq.not_le]
  · intro hno
    cases ms with
    | finite q =>
      have hq : q ≤ 0 := by
        by_contra hpos
        exact hno ⟨q, rfl, lt_of_not_le hpos⟩
      simp [Thread.SetMaxDeltaMs, JSNum.isFinite, JSNum.leZero, hq]
    | nan => simp [Thread.SetMaxDeltaMs, JSNum.isFinite, JSNum.leZero]
    | posInf => simp [Thread.SetMaxDeltaMs, JSNum.isFinite, JSNum.leZero]
    | negInf => simp [Thread.SetMaxDeltaMs, JSNum.isFinite, JSNum.leZero]

/-- C9 witness: rate 120 is stored exactly; `SetMaxDeltaMs NaN` reports
the error and keeps `maxDeltaMs` at its default. -/
theorem thread_setters_validate_witness :
    Thread.SetSimulationUpdateRate (.finite 120) (mkThread 0)
      = ({ mkThread 0 with simulationUpdateRate := 120 }, [])
    ∧ Thread.SetMaxDeltaMs .nan (mkThread 0)
      = (mkThread 0, [.THREAD_INVALID_DELTA_TIME]) := by
  have h := thread_setters_validate (.finite 120) .nan (mkThread 0)
  refine ⟨h.1 120 rfl (by norm_num), h.2.2.2 ?_⟩
  rintro ⟨q, hq, -⟩
  exact JSNum.noConfusion hq

/-- C10: `Start()` on an idle thread resets the timing state: the sliding
window is emptied, `frameRate` is 0, the timestamps are set to the current
time, and the first tick after the restart computes its delta and window
from that `Start()` time only. -/
theorem thread_start_resets (s : ThreadState) (now t : ℤ) (h : s.isActive = false) :
    (Thread.Start now s).1.isActive = true
    ∧ (Thread.Start now s).1.times = []
    ∧ (Thread.Start now s).1.frameRate = 0
    ∧ (Thread.Start now s).1.lastRegisteredTimestamp = now
    ∧ (Thread.Start now s).1.currentRegisteredTimestamp = now
    ∧ (Thread.Start now s).1.startTimestamp = now
    ∧ (Thread.loop t (Thread.Start now s).1).times = [t]
    ∧ (Thread.loop t (Thread.Start now s).1).deltaTime
        = min ((t - now : ℤ) : ℚ) s.maxDeltaMs / 1000 * s.simulationUpdateRate := by
  simp [Thread.Start, h, Thread.loop, evictOld]

/-- C10 witness: restarting a default thread at time 100 clears the
window and frame rate, and a tick at 150 sees only the 50 ms since the
restart (`50 / 1000 * 60 = 3`). -/
theorem thread_start_resets_witness :
    (Thread.Start 100 (mkThread 7)).1.times = []
    ∧ (Thread.Start 100 (mkThread 7)).1.frameRate = 0
    ∧ (Thread.Start 100 (mkThread 7)).1.lastRegisteredTimestamp = 100
    ∧ (Thread.loop 150 (Thread.Start 100 (mkThread 7)).1).deltaTime = 3 := by
  have h := thread_start_resets (mkThread 7) 100 150 rfl
  refine ⟨h.2.1, h.2.2.1, h.2.2.2.1, ?_⟩
  rw [h.2.2.2.2.2.2.2]
  norm_num [mkThread, min_def]

/-- On a sorted window the front-eviction loop removes exactly the entries
at or below `now - 1000`. -/
theorem evictOld_eq_filter (now : ℤ) (l : List ℤ) (h : l.Sorted (· ≤ ·)) :
    evictOld l now = l.filter (fun t => decide (now - 1000 < t)) := by
  induction l with
  | nil => rfl
  | cons t ts ih =>
    rw [List.sorted_cons] at h
    by_cases hc : t ≤ now - 1000
    · rw [evictOld, if_pos hc, ih h.2, List.filter_cons,
        if_neg (by simp [not_lt.mpr hc])]
    · have ht : now - 1000 < t := lt_of_not_le hc
      have hkeep : List.filter (fun a => decide (now - 1000 < a)) ts = ts :=
        List.filter_eq_self.mpr fun a ha => decide_eq_true (lt_of_lt_of_le ht (h.1 a ha))
      rw [evictOld, if_neg hc, List.filter_cons, if_pos (decide_eq_true ht), hkeep]

/-- When every window entry is still inside the rolling second, the
eviction loop removes nothing. -/
theorem evictOld_of_window (now : ℤ) (l : List ℤ) (h : ∀ x ∈ l, now - 1000 < x) :
    evictOld l now = l := by
  cases l with
  | nil => rfl
  | cons t ts => exact if_neg (not_le.mpr (h t (List.mem_cons_self t ts)))

/-- The window, activity and frame-rate fields after one tick of an
active thread. -/
theorem loop_times_active (s : ThreadState) (t : ℤ) (h : s.isActive = true) :
    (Thread.loop t s).times = evictOld s.times t ++ [t]
    ∧ (Thread.loop t s).isActive = true
    ∧ (Thread.loop t s).frameRate = (evictOld s.times t ++ [t]).length := by
  simp [Thread.loop, h]

/-- Ticks that all fall inside one rolling second accumulate in the
window without any eviction. -/
theorem runTicks_in_window (c : ℤ) :
    ∀ (ts : List ℤ) (s : ThreadState), s.isActive = true →
      (∀ x ∈ s.times, c ≤ x) → (∀ t ∈ ts, c ≤ t ∧ t < c + 1000) →
      (runTicks ts s).times = s.times ++ ts
      ∧ (runTicks ts s).isActive = true
      ∧ (ts = [] → (runTicks ts s).frameRate = s.frameRate)
      ∧ (ts ≠ [] → (runTicks ts s).frameRate = (s.times ++ ts).length) := by
  intro ts
  induction ts with
  | nil =>
    intro s hact htimes hts
    exact ⟨by simp [runTicks], hact, fun _ => rfl, fun hne => absurd rfl hne⟩
  | cons t ts ih =>
    intro s hact htimes hts
    have hT := hts t (List.mem_cons_self t ts)
    have hne : evictOld s.times t = s.times :=
      evictOld_of_window t s.times fun x hx =>
        lt_of_lt_of_le (by linarith [hT.2]) (htimes x hx)
    have hstep := loop_times_active s t hact
    have hrest := ih (Thread.loop t s) hstep.2.1
      (by
        rw [hstep.1, hne]
        intro x hx
        rcases List.mem_append.1 hx with hx | hx
        · exact htimes x hx
        · rw [List.mem_singleton.1 hx]; exact hT.1)
      (fun u hu => hts u (List.mem_cons_of_mem t hu))
    have hsteptimes : (Thread.loop t s).times = s.times ++ [t] := by
      rw [hstep.1, hne]
    have hruncons : runTicks (t :: ts) s = runTicks ts (Thread.loop t s) := rfl
    refine ⟨?_, ?_, ?_, ?_⟩
    · rw [hruncons, hrest.1, hsteptimes, List.append_assoc]
      rfl
    · rw [hruncons]; exact hrest.2.1
    · intro habs; exact absurd habs (List.cons_ne_nil t ts)
    · intro _
      rw [hruncons]
      rcases Decidable.em (ts = []) with hts0 | hts0
      · subst hts0
        rw [hrest.2.2.1 rfl, hstep.2.2, hne]
      · rw [hrest.2.2.2 hts0, hsteptimes, List.append_assoc]
        rfl

/-- C7: after every tick on a sorted window, the window holds exactly the
tick timestamps newer than `now - 1000` (older entries evicted) and the
reported `frameRate` is the window length; consequently N ticks inside one
rolling second, counted from a fresh `Start()`, report `frameRate = N`. -/
theorem scheduler_window_exact (s : ThreadState) (now : ℤ)
    (hact : s.isActive = true) (hsort : s.times.Sorted (· ≤ ·)) :
    (Thread.loop now s).times
      = (s.times ++ [now]).filter (fun t => decide (now - 1000 < t))
    ∧ (Thread.loop now s).frameRate = (Thread.loop now s).times.length
    ∧ ∀ (c : ℤ) (ts : List ℤ), (∀ t ∈ ts, c ≤ t ∧ t < c + 1000) →
        (runTicks ts (Thread.Start c (mkThread c)).1).frameRate = ts.length := by
  have hstep := loop_times_active s now hact
  refine ⟨?_, ?_, ?_⟩
  · rw [hstep.1, evictOld_eq_filter now s.times hsort, List.filter_append]
    simp
  · rw [hstep.2.2, hstep.1]
  · intro c ts hts
    have hstart : (Thread.Start c (mkThread c)).1
        = { mkThread c with
              isActive := true, startTimestamp := c, lastRegisteredTimestamp := c,
              currentRegisteredTimestamp := c, times := [], frameRate := 0 } := rfl
    have hrun := runTicks_in_window c ts (Thread.Start c (mkThread c)).1
      (by rw [hstart]) (by rw [hstart]; intro x hx; exact absurd hx (List.not_mem_nil x)) hts
    rcases Decidable.em (ts = []) with h0 | h0
    · subst h0
      rw [hrun.2.2.1 rfl, hstart]
      rfl
    · rw [hrun.2.2.2 h0, hstart]
      rfl

/-- C7 witness: an active thread whose window holds ticks at 0 and 500
ticks at 1100: the entry at 0 is evicted, the window becomes
`[500, 1100]` and `frameRate = 2`; and three synthetic ticks at 100, 200,
300 after a `Start()` at 100 report `frameRate = 3`. -/
theorem scheduler_window_exact_witness :
    (Thread.loop 1100 { mkThread 0 with isActive := true, times := [0, 500] }).times
      = [500, 1100]
    ∧ (Thread.loop 1100 { mkThread 0 with isActive := true, times := [0, 500] }).frameRate = 2
    ∧ (runTicks [100, 200, 300] (Thread.Start 100 (mkThread 100)).1).frameRate = 3 := by
  have h := scheduler_window_exact { mkThread 0 with isActive := true, times := [0, 500] }
    1100 rfl (by decide)
  refine ⟨?_, ?_, ?_⟩
  · rw [h.1]; decide
  · rw [h.2.1, h.1]; decide
  · exact h.2.2 100 [100, 200, 300] (by decide)

/-- Rebuilding the targets never decreases the handle counter. -/
theorem createOrResizeTargets_nextId (s : RendererState) :
    s.nextId ≤ (createOrResizeTargets s).nextId := by
  unfold createOrResizeTargets
  split
  · exact Nat.le_refl _
  · exact Nat.le_add_right _ 2

/-- `BeginFrame` consumes at least three fresh handles. -/
theorem beginFrame_nextId (s : RendererState) :
    s.nextId + 3 ≤ (BeginFrame s).1.nextId := by
  unfold BeginFrame
  dsimp only
  have h1 := createOrResizeTargets_nextId ({ s with nextId := s.nextId + 2 })
  have h2 := createOrResizeTargets_nextId
    (createOrResizeTargets { s with nextId := s.nextId + 2 })
  dsimp only at h1
  split <;> split <;> first
    | omega
    | (dsimp only; omega)

/-- C1 counterexample: on an initialized, sized renderer with a frame
session already begun, a second `BeginFrame` without an intervening
`EndFrame` emits no diagnostic at all — no UsageError is reported (and
neither did the first call). -/
theorem beginFrame_double_begin_silent :
    (BeginFrame (BeginFrame (SetSize 800 600 (initializedRenderer {}))).1).2.2
      = ([] : List ErrCode)
    ∧ (BeginFrame (SetSize 800 600 (initializedRenderer {}))).2.2 = ([] : List ErrCode) :=
  ⟨rfl, rfl⟩

/-- C1 amended: `BeginFrame` performs no session tracking: it reports no
diagnostic on any state, so a double `BeginFrame` is silently accepted and
simply opens a second, distinct session (fresh encoder); the first
session's record is left as it was. `EndFrame` unconditionally ends its
argument's pass and submits its encoder, with no open-session check and no
diagnostic. -/
theorem beginFrame_no_session_guard (s : RendererState) (f : WebGPURendererFrameInfo) :
    (BeginFrame s).2.2 = []
    ∧ (BeginFrame (BeginFrame s).1).2.2 = []
    ∧ (BeginFrame (BeginFrame s).1).2.1.encoder ≠ (BeginFrame s).2.1.encoder
    ∧ EndFrame f = [.passEnd f.pass, .queueSubmit f.encoder] := by
  refine ⟨rfl, rfl, ?_, rfl⟩
  have h1 : (BeginFrame s).2.1.encoder = s.nextId + 1 := rfl
  have h2 : (BeginFrame (BeginFrame s).1).2.1.encoder = (BeginFrame s).1.nextId + 1 := rfl
  have h3 := beginFrame_nextId s
  rw [h1, h2]
  omega

/-- JS `x | 0` is the identity on exact integers inside the int32 range. -/
theorem toInt32_eq_self (x : ℤ) (h1 : -(2 ^ 31) ≤ x) (h2 : x < 2 ^ 31) :
    toInt32 x = x := by
  unfold toInt32
  rw [Int.emod_eq_of_lt (by omega) (by omega)]
  omega

/-- A reflected `unsigned long` assignment stores the assigned value
itself whenever it lies in the attribute's accepted range 0..2147483647. -/
theorem reflectUnsignedLong_eq_self (dflt v : ℤ) (h0 : 0 ≤ v) (h1 : v ≤ 2 ^ 31 - 1) :
    reflectUnsignedLong dflt v = v := by
  unfold reflectUnsignedLong
  rw [Int.emod_eq_of_lt h0 (by omega)]
  exact if_pos h1

/-- C2 counterexample: `SetSize(2^31, 600)` at pixel ratio 1 allocates a
depth texture of width 300, not `max(1, floor(2^31 * 1)) = 2^31`: the
reflected `canvas.width` attribute rejects values above 2147483647 and
falls back to its default of 300, which the render targets then take. -/
theorem setSize_default_above_int32 :
    (SetSize (2 ^ 31) 600 (initializedRenderer {})).depthTexture.map TextureDesc.width
      = some 300
    ∧ max 1 ⌊(2 ^ 31 : ℚ) * (initializedRenderer {}).devicePixelRatio⌋ = 2 ^ 31
    ∧ ((300 : ℤ) ≠ 2 ^ 31) := by
  have hfloor : ⌊(2 ^ 31 : ℚ) * (initializedRenderer {}).devicePixelRatio⌋ = (2 ^ 31 : ℤ) := by
    rw [show ((2 ^ 31 : ℚ) * (initializedRenderer {}).devicePixelRatio) = (((2 : ℤ) ^ 31 : ℤ) : ℚ) by
      push_cast [initializedRenderer]
      ring]
    exact Int.floor_intCast _
  have hmax : max 1 ⌊(2 ^ 31 : ℚ) * (initializedRenderer {}).devicePixelRatio⌋ = (2 ^ 31 : ℤ) := by
    rw [hfloor]
    exact max_eq_right (by norm_num)
  refine ⟨?_, hmax, by norm_num⟩
  rw [show (600 : ℚ) = ((600 : ℤ) : ℚ) by norm_num] at *
  unfold SetSize createOrResizeTargets
  simp only [initializedRenderer, hmax]
  norm_num [reflectUnsignedLong, toInt32, Int.floor_intCast, max_def]

/-- C2 amended: after `SetSize` the physical target dimensions equal
`max(1, floor(logical * ratio))` on each axis whenever that value is at
most 2147483647; above that, the reflected `canvas.width`/`canvas.height`
attribute falls back to its default (300 wide, 150 high) and the targets
take that default instead; for every input whatsoever the allocated
dimensions are at least 1, never zero. -/
theorem setSize_physical_dims (w h : ℚ) (s : RendererState)
    (hdev : s.gpuDevice = true)
    (hw : max 1 ⌊w * s.devicePixelRatio⌋ ≤ 2 ^ 31 - 1)
    (hh : max 1 ⌊h * s.devicePixelRatio⌋ ≤ 2 ^ 31 - 1) :
    (SetSize w h s).depthTexture
      = some { width := max 1 ⌊w * s.devicePixelRatio⌋,
               height := max 1 ⌊h * s.devicePixelRatio⌋,
               sampleCount := getMsaa s }
    ∧ (1 < getMsaa s →
        (SetSize w h s).msaaTexture
          = some { width := max 1 ⌊w * s.devicePixelRatio⌋,
                   height := max 1 ⌊h * s.devicePixelRatio⌋,
                   sampleCount := getMsaa s })
    ∧ (∀ (w2 h2 : ℚ) (td : TextureDesc),
        (SetSize w2 h2 s).depthTexture = some td → 1 ≤ td.width ∧ 1 ≤ td.height) := by
  have hw1 : (1 : ℤ) ≤ max 1 ⌊w * s.devicePixelRatio⌋ := le_max_left _ _
  have hh1 : (1 : ℤ) ≤ max 1 ⌊h * s.devicePixelRatio⌋ := le_max_left _ _
  have hwr : reflectUnsignedLong 300 (max 1 ⌊w * s.devicePixelRatio⌋)
      = max 1 ⌊w * s.devicePixelRatio⌋ :=
    reflectUnsignedLong_eq_self 300 _ (by omega) hw
  have hhr : reflectUnsignedLong 150 (max 1 ⌊h * s.devicePixelRatio⌋)
      = max 1 ⌊h * s.devicePixelRatio⌋ :=
    reflectUnsignedLong_eq_self 150 _ (by omega) hh
  have hwe : toInt32 (max 1 ⌊w * s.devicePixelRatio⌋) = max 1 ⌊w * s.devicePixelRatio⌋ :=
    toInt32_eq_self _ (by omega) (by omega)
  have hhe : toInt32 (max 1 ⌊h * s.devicePixelRatio⌋) = max 1 ⌊h * s.devicePixelRatio⌋ :=
    toInt32_eq_self _ (by omega) (by omega)
  have hmsaa : getMsaa { s with
      width := reflectUnsignedLong 300 (max 1 ⌊w * s.devicePixelRatio⌋),
      height := reflectUnsignedLong 150 (max 1 ⌊h * s.devicePixelRatio⌋) } = getMsaa s := rfl
  refine ⟨?_, ?_, ?_⟩
  · unfold SetSize createOrResizeTargets
    rw [if_neg (by simp [hdev])]
    simp only [hmsaa]
    rw [hwr, hhr, hwe, hhe, max_eq_right hw1, max_eq_right hh1]
  · intro hm
    unfold SetSize createOrResizeTargets
    rw [if_neg (by simp [hdev])]
    simp only [hmsaa]
    rw [hwr, hhr, hwe, hhe, max_eq_right hw1, max_eq_right hh1, if_pos hm]
  · intro w2 h2 td htd
    unfold SetSize createOrResizeTargets at htd
    rw [if_neg (by simp [hdev])] at htd
    simp only [Option.some.injEq] at htd
    rw [← htd]
    exact ⟨le_max_left _ _, le_max_left _ _⟩

/-- C2 amended witness: logical 800x600 at ratio 3/2 gives a 1200x900
depth target with the renderer's effective sample count. -/
theorem setSize_physical_dims_witness :
    (SetSize 800 600 { initializedRenderer {} with devicePixelRatio := 3 / 2 }).depthTexture
      = some { width := 1200, height := 900, sampleCount := 1 } := by
  have hw : max 1 ⌊(800 : ℚ) * (3 / 2 : ℚ)⌋ = (1200 : ℤ) := by
    rw [show ((800 : ℚ) * (3 / 2 : ℚ)) = (((1200 : ℤ) : ℚ)) by norm_num]
    rw [Int.floor_intCast]
    exact max_eq_right (by norm_num)
  have hh : max 1 ⌊(600 : ℚ) * (3 / 2 : ℚ)⌋ = (900 : ℤ) := by
    rw [show ((600 : ℚ) * (3 / 2 : ℚ)) = (((900 : ℤ) : ℚ)) by norm_num]
    rw [Int.floor_intCast]
    exact max_eq_right (by norm_num)
  have h := setSize_physical_dims 800 600
    { initializedRenderer {} with devicePixelRatio := 3 / 2 } rfl
    (by rw [show (({ initializedRenderer {} with devicePixelRatio := 3 / 2 } : RendererState).devicePixelRatio) = (3 / 2 : ℚ) from rfl, hw]; norm_num)
    (by rw [show (({ initializedRenderer {} with devicePixelRatio := 3 / 2 } : RendererState).devicePixelRatio) = (3 / 2 : ℚ) from rfl, hh]; norm_num)
  rw [h.1]
  rw [show (({ initializedRenderer {} with devicePixelRatio := 3 / 2 } : RendererState).devicePixelRatio) = (3 / 2 : ℚ) from rfl, hw, hh]
  rfl

/-- C3 counterexample: a requested `msaaSampleCount` of 3 (outside
{1,2,4,8}) resolves to 1 in `getMsaa` (target allocation), but the sample
count consumed at frame begin is `max(1, 3) = 3`, and scene preparation
passes the raw 3 to `Renderable.Initialize` — the clamp does not apply at
those consumption sites. -/
theorem msaa_three_not_clamped_everywhere :
    getMsaa (initializedRenderer { msaaSampleCount := some 3 }) = 1
    ∧ beginFrameMsaa (initializedRenderer { msaaSampleCount := some 3 }) = 3
    ∧ prepareSampleArg (initializedRenderer { msaaSampleCount := some 3 }) = 3
    ∧ ¬ ((3 : ℤ) = 1 ∨ (3 : ℤ) = 2 ∨ (3 : ℤ) = 4 ∨ (3 : ℤ) = 8)
    ∧ (3 : ℤ) ≠ 1 := by
  refine ⟨?_, ?_, rfl, by decide, by decide⟩
  · norm_num [getMsaa, initializedRenderer]
  · norm_num [beginFrameMsaa, initializedRenderer, max_def]

/-- C3 amended: `getMsaa` resolves requests outside {1,2,4,8} to 1 and
preserves requests inside the set exactly, and target allocation consumes
this clamped value; but `BeginFrame` consumes `max(1, request)` unclamped
for its MSAA-branch decision, and `Scene.Prepare` forwards the raw
request to every `Renderable.Initialize`. -/
theorem msaa_clamp_sites (n : ℤ) (s : RendererState)
    (hopt : s.options.msaaSampleCount = some n) (hdev : s.gpuDevice = true) :
    ((n = 1 ∨ n = 2 ∨ n = 4 ∨ n = 8) → getMsaa s = n)
    ∧ (¬ (n = 1 ∨ n = 2 ∨ n = 4 ∨ n = 8) → getMsaa s = 1)
    ∧ (∀ td, (createOrResizeTargets s).depthTexture = some td → td.sampleCount = getMsaa s)
    ∧ beginFrameMsaa s = max 1 n
    ∧ prepareSampleArg s = n := by
  refine ⟨?_, ?_, ?_, ?_, ?_⟩
  · intro hin
    simp [getMsaa, hopt, hin]
  · intro hout
    simp [getMsaa, hopt, hout]
  · intro td htd
    unfold createOrResizeTargets at htd
    rw [if_neg (by simp [hdev])] at htd
    simp only [Option.some.injEq] at htd
    rw [← htd]
  · simp [beginFrameMsaa, hopt]
  · simp [prepareSampleArg, hopt]

/-- C3 amended witness: at request 3 the clamped value is 1, the target
allocation stores 1, frame begin consumes 3 and preparation forwards 3. -/
theorem msaa_clamp_sites_witness :
    getMsaa (initializedRenderer { msaaSampleCount := some 3 }) = 1
    ∧ (∀ td,
        (createOrResizeTargets (initializedRenderer { msaaSampleCount := some 3 })).depthTexture
          = some td →
        td.sampleCount = getMsaa (initializedRenderer { msaaSampleCount := some 3 }))
    ∧ beginFrameMsaa (initializedRenderer { msaaSampleCount := some 3 }) = max 1 3
    ∧ prepareSampleArg (initializedRenderer { msaaSampleCount := some 3 }) = 3 := by
  have h := msaa_clamp_sites 3 (initializedRenderer { msaaSampleCount := some 3 }) rfl rfl
  exact ⟨h.2.1 (by decide), h.2.2.1, h.2.2.2.1, h.2.2.2.2⟩

/-- The sequential initialization loop succeeds iff every renderable's
`Initialize` succeeds. -/
theorem runInits_eq_all (initOk : RenderableRef → Bool) (l : List RenderableRef) :
    runInits initOk l = true ↔ ∀ r ∈ l, initOk r = true := by
  induction l with
  | nil => simp [runInits]
  | cons r rs ih =>
    by_cases h : initOk r = true
    · rw [runInits, if_pos h, ih]
      constructor
      · intro hall u hu
        rcases List.mem_cons.1 hu with rfl | hu
        · exact h
        · exact hall u hu
      · intro hall u hu
        exact hall u (List.mem_cons_of_mem r hu)
    · rw [runInits, if_neg h]
      constructor
      · intro hfalse
        exact absurd hfalse Bool.false_ne_true
      · intro hall
        exact absurd (hall r (List.mem_cons_self r rs)) h

/-- C4: `Scene.Prepare` on an uninitialized renderer fails, reports the
error and leaves `hasPrepared` false; `hasPrepared` becomes true exactly
when the renderer was initialized, every renderable's `Initialize`
succeeded, and the camera-binding step completed. -/
theorem prepare_gate (rendererInitialized : Bool) (initOk : RenderableRef → Bool)
    (s : SceneState) (h : s.hasPrepared = false) :
    (rendererInitialized = false →
        Prepare rendererInitialized initOk s
          = { scene := s, bindingDone := false,
              errors := [.WGPURSCENE_RENDERER_NOT_INITIALIZED], threw := false })
    ∧ ((Prepare rendererInitialized initOk s).scene.hasPrepared = true ↔
        rendererInitialized = true ∧ (∀ r ∈ s.rendererables, initOk r = true)
          ∧ (Prepare rendererInitialized initOk s).bindingDone = true) := by
  constructor
  · rintro rfl
    rw [Prepare, if_pos (by simp)]
  · cases rendererInitialized with
    | false =>
      rw [Prepare, if_pos (by simp)]
      simp [h]
    | true =>
      rw [Prepare, if_neg (by simp)]
      by_cases hall : runInits initOk s.rendererables = true
      · rw [if_pos hall]
        constructor
        · intro _
          exact ⟨rfl, (runInits_eq_all initOk s.rendererables).1 hall, rfl⟩
        · intro _
          rfl
      · rw [if_neg hall]
        simp only [h, Bool.false_eq_true, false_iff, not_and]
        intro _ hforall
        exact absurd ((runInits_eq_all initOk s.rendererables).2 hforall) hall

/-- C4 witness: on a two-renderable scene with succeeding initializers,
`Prepare` on an uninitialized renderer leaves `hasPrepared` false and
reports the error, while `Prepare` on an initialized renderer flips
`hasPrepared` to true. -/
theorem prepare_gate_witness :
    (Prepare false (fun _ => true)
        { rendererables := [⟨true, 0⟩, ⟨true, 1⟩], hasPrepared := false }).scene.hasPrepared
      = false
    ∧ (Prepare false (fun _ => true)
        { rendererables := [⟨true, 0⟩, ⟨true, 1⟩], hasPrepared := false }).errors
      = [.WGPURSCENE_RENDERER_NOT_INITIALIZED]
    ∧ (Prepare true (fun _ => true)
        { rendererables := [⟨true, 0⟩, ⟨true, 1⟩], hasPrepared := false }).scene.hasPrepared
      = true := by
  have h1 := prepare_gate false (fun _ => true)
    { rendererables := [⟨true, 0⟩, ⟨true, 1⟩], hasPrepared := false } rfl
  have h2 := prepare_gate true (fun _ => true)
    { rendererables := [⟨true, 0⟩, ⟨true, 1⟩], hasPrepared := false } rfl
  refine ⟨?_, ?_, h2.2.mpr ⟨rfl, fun r _ => rfl, rfl⟩⟩
  · rw [h1.1 rfl]
  · rw [h1.1 rfl]

/-- Writing the matrix at byte offset 0 and the position at byte offset
64 into a 20-slot float32 buffer: the first 16 slots become the matrix,
slots 16-18 the position, and slot 19 is untouched. -/
theorem writeBuffer_layout (vp pos d : List ℚ) (h16 : vp.length = 16)
    (h3 : pos.length = 3) :
    writeBufferFloats (writeBufferFloats d 0 vp) 64 pos = vp ++ pos ++ d.drop 19 := by
  unfold writeBufferFloats
  rw [show (0 : ℕ) / 4 = 0 from rfl, show (64 : ℕ) / 4 = 16 from rfl,
    List.take_zero, List.nil_append, Nat.zero_add, h16, h3]
  rw [List.take_left' h16]
  have hdrop : (vp ++ d.drop 16).drop (16 + 3) = d.drop 19 := by
    rw [show (16 + 3 : ℕ) = 16 + 3 from rfl, ← List.drop_drop,
      List.drop_left' h16, List.drop_drop]
  rw [hdrop, List.append_assoc]

/-- C5: `WriteUniformsToQueue` writes the 16-entry column-major
view-projection matrix at byte offset 0 (64 bytes) and the xyz world
position at byte offset 64, into the single 80-byte uniform buffer (whose
final four bytes it never touches), emitting no diagnostic; and a repeated
write with no intervening camera change leaves the buffer contents
byte-identical. -/
theorem camera_uniform_layout (cam : CameraState) (buffer : GPUBufferState)
    (hbuf : cam.uniformBuffer = some buffer) (hsize : buffer.size = 80)
    (hlen : buffer.data.length = 20) (hvp : cam.viewProjection.length = 16) :
    (WriteUniformsToQueue cam).1.uniformBuffer
      = some { size := 80,
               data := cam.viewProjection
                 ++ [cam.position.x, cam.position.y, cam.position.z]
                 ++ buffer.data.drop 19 }
    ∧ (WriteUniformsToQueue cam).2 = []
    ∧ (WriteUniformsToQueue (WriteUniformsToQueue cam).1).1.uniformBuffer
        = (WriteUniformsToQueue cam).1.uniformBuffer := by
  have hpos : ([cam.position.x, cam.position.y, cam.position.z] : List ℚ).length = 3 := rfl
  have hw1 := writeBuffer_layout cam.viewProjection
    [cam.position.x, cam.position.y, cam.position.z] buffer.data hvp hpos
  have hfirst : WriteUniformsToQueue cam
      = ({ cam with uniformBuffer := some (GPUBufferState.mk buffer.size
            (cam.viewProjection ++ [cam.position.x, cam.position.y, cam.position.z]
              ++ buffer.data.drop 19)) }, []) := by
    unfold WriteUniformsToQueue
    rw [hbuf]
    dsimp only
    rw [hw1]
  have hdrop2 : (cam.viewProjection
      ++ [cam.position.x, cam.position.y, cam.position.z]
      ++ buffer.data.drop 19).drop 19 = buffer.data.drop 19 := by
    rw [show (19 : ℕ) = 16 + 3 from rfl, ← List.drop_drop, List.append_assoc,
      List.drop_left' hvp, List.drop_left' hpos]
  refine ⟨?_, ?_, ?_⟩
  · rw [hfirst, hsize]
  · rw [hfirst]
  · have hsecond := writeBuffer_layout cam.viewProjection
      [cam.position.x, cam.position.y, cam.position.z]
      (cam.viewProjection ++ [cam.position.x, cam.position.y, cam.position.z]
        ++ buffer.data.drop 19) hvp hpos
    rw [hfirst]
    dsimp only
    unfold WriteUniformsToQueue
    dsimp only
    rw [hsecond, hdrop2]

/-- C5 witness: a concrete camera with matrix entries 1..16 at position
(7, 8, 9) and a fresh 80-byte buffer: the write produces exactly those 16
matrix slots, the position at slots 16-18, an untouched final slot, and
writes twice what it writes once. -/
theorem camera_uniform_layout_witness :
    (WriteUniformsToQueue
        { position := { x := 7, y := 8, z := 9 },
          viewProjection := [1, 2, 3, 4, 5, 6, 7, 8, 9, 10, 11, 12, 13, 14, 15, 16],
          uniformBuffer := some { size := 80, data := List.replicate 20 0 } }).1.uniformBuffer
      = some { size := 80,
               data := [1, 2, 3, 4, 5, 6, 7, 8, 9, 10, 11, 12, 13, 14, 15, 16, 7, 8, 9, 0] } := by
  have h := camera_uniform_layout
    { position := { x := 7, y := 8, z := 9 },
      viewProjection := [1, 2, 3, 4, 5, 6, 7, 8, 9, 10, 11, 12, 13, 14, 15, 16],
      uniformBuffer := some { size := 80, data := List.replicate 20 0 } }
    { size := 80, data := List.replicate 20 0 } rfl rfl rfl rfl
  rw [h.1]
  rfl

/-- Draw commands of a mapped renderable list, projected back out. -/
theorem filterMap_draw (l : List RenderableRef) :
    l.filterMap (RenderOp.drawId ∘ fun renderable => RenderOp.draw renderable.rid)
      = l.map RenderableRef.rid := by
  induction l with
  | nil => rfl
  | cons a l ih => simp [List.filterMap_cons, Function.comp, RenderOp.drawId, ih]

/-- C8: on a prepared scene with a live queue, `Render` issues exactly one
draw per renderable, in list order; on an unprepared scene it reports the
error and issues nothing; and `AddRenderable` appends, so list order is
insertion order. -/
theorem render_draw_order (r : RendererState) (queuePresent camBufferPresent : Bool)
    (scene : SceneState) :
    (scene.hasPrepared = true → queuePresent = true →
        ((Render r queuePresent camBufferPresent scene).1.filterMap RenderOp.drawId)
          = scene.rendererables.map RenderableRef.rid)
    ∧ (scene.hasPrepared = false →
        (Render r queuePresent camBufferPresent scene).1 = []
        ∧ (Render r queuePresent camBufferPresent scene).2 = [.WGPUR_SCENE_NOT_PREPARED])
    ∧ (∀ (sc : SceneState) (x : RenderableRef), x.isRenderable = true →
        (AddRenderable x sc).rendererables = sc.rendererables ++ [x]) := by
  refine ⟨?_, ?_, ?_⟩
  · intro hprep hq
    rw [Render, if_neg (by simp [hprep]), if_neg (by simp [hq])]
    dsimp only
    rw [EndFrame]
    cases camBufferPresent <;>
      simp [RenderOp.drawId, List.filterMap_append, filterMap_draw]
  · intro hprep
    rw [Render, if_pos (by simp [hprep])]
    exact ⟨rfl, rfl⟩
  · intro sc x hx
    rw [AddRenderable, if_pos hx]

/-- C8 witness: a prepared two-renderable scene draws ids [0, 1] in
insertion order; the same scene unprepared yields no commands and the
not-prepared error. -/
theorem render_draw_order_witness :
    ((Render (initializedRenderer {}) true true
        { rendererables := [⟨true, 0⟩, ⟨true, 1⟩], hasPrepared := true }).1.filterMap
          RenderOp.drawId) = [0, 1]
    ∧ (Render (initializedRenderer {}) true true
        { rendererables := [⟨true, 0⟩, ⟨true, 1⟩], hasPrepared := false }).2
      = [.WGPUR_SCENE_NOT_PREPARED]
    ∧ (AddRenderable ⟨true, 1⟩ (AddRenderable ⟨true, 0⟩
        { rendererables := [], hasPrepared := false })).rendererables
      = [⟨true, 0⟩, ⟨true, 1⟩] := by
  have h1 := render_draw_order (initializedRenderer {}) true true
    { rendererables := [⟨true, 0⟩, ⟨true, 1⟩], hasPrepared := true }
  have h2 := render_draw_order (initializedRenderer {}) true true
    { rendererables := [⟨true, 0⟩, ⟨true, 1⟩], hasPrepared := false }
  refine ⟨?_, (h2.2.1 rfl).2, ?_⟩
  · rw [h1.1 rfl rfl]
    rfl
  · rw [h1.2.2 _ ⟨true, 1⟩ rfl, h1.2.2 _ ⟨true, 0⟩ rfl]
    rfl

end FluexGL
